import Mathlib

/-!
# Verification of `py-openapilib` (openapilib/spec.py) against its specification

Shallow embedding of the type-to-schema compiler (`Schema.from_type` and its
handlers), the sentinel/required-field construction machinery (`attr_required`,
`validate_required`, `attr_skippable` under `attrs`-style initialisation), and
the component registry (`Components`).  The package imports
`typing.GenericMeta`, which exists only on Python 3.6, so host behaviour
(builtin subclassing, `typing` internals, `dict` insertion order) is modelled
after CPython 3.6.

Conventions:
* Python `None` is `Value.none`; the `SKIP` / `REQUIRED` sentinels are
  dedicated constructors.
* A field that is "not set" on a rendered/constructed schema is `Option.none`
  (attrs default `SKIP` means the key is absent from the output).
* Error messages reproduce the source format strings, except that apostrophes
  and `repr` quoting are elided (e.g. Python prints `<class 'int'>`, the model
  prints `<class int>`), and `repr` of subscripted hints elides the argument
  list; no claim depends on those characters.
-/

namespace OpenApiLib

/-! ## Schema objects

`spec.py` defines `Schema` with ~25 skippable attributes.  The embedding keeps
the attributes that the compiler (`Schema.from_type` and its helpers) can
reach: `_type` (init name `type`), `format`, `items`, `additional_properties`,
`any_of`, `properties`.  All other attributes keep their `SKIP` default on
every code path exercised here.  `from_type` may also return a pre-made
`Reference` unchanged, hence the `ref` constructor. -/

inductive SchemaO where
  /-- A `Schema(...)` value: type, format, items, additional_properties,
  any_of, properties; `Option.none` is the `SKIP` default (key absent). -/
  | sch (type : Option String) (format : Option String)
        (items : Option SchemaO) (additionalProperties : Option SchemaO)
        (anyOf : Option (List SchemaO))
        (properties : Option (List (String × SchemaO))) : SchemaO
  /-- A `Reference(ref=...)` value. -/
  | ref (r : String) : SchemaO
deriving Repr

/-- `Schema()`: every attribute left at its `SKIP` default. -/
def emptySchema : SchemaO := .sch none none none none none none

/-- Python exceptions raised by the embedded code, by class. -/
inductive PyErr where
  | schemaHelperUnhandled (msg : String)
  | schemaHelperError (msg : String)
  | typeError (msg : String)
  | valueError (msg : String)
  | attributeError (msg : String)
deriving Repr, DecidableEq

/-! ## Python source-type descriptors -/

/-- A Python class object that can be passed to `Schema.from_type` /
`from_builtin_simple_type`.  `userNoBases` is a class whose `__bases__` is
empty (the `not source.__bases__` test in `from_type`); `otherClass` is any
other class that is not one of the builtins below (its `__bases__` is
non-empty and it subclasses none of the `SCHEMA_SIMPLE_TYPE_ARGS` keys). -/
inductive PyType where
  | str | int | float | bool | list | tuple | dict
  | otherClass (name : String)
deriving Repr, DecidableEq

/-- The six keys of `SCHEMA_SIMPLE_TYPE_ARGS`, in Python 3.6 `dict`
insertion order (`str`, `int`, `float`, `bool`, `list`, `tuple`). -/
inductive SimpleBase where
  | str | int | float | bool | list | tuple
deriving Repr, DecidableEq

/-- Host `issubclass` relation between the modelled classes and the table
keys.  In CPython, `bool` is a subclass of `int`; no other non-reflexive
subclassings hold among `str`, `int`, `float`, `bool`, `list`, `tuple`. -/
def issubclass : PyType → SimpleBase → Bool
  | .str, .str => true
  | .int, .int => true
  | .float, .float => true
  | .bool, .bool => true
  | .bool, .int => true
  | .list, .list => true
  | .tuple, .tuple => true
  | _, _ => false

/-- `SCHEMA_SIMPLE_TYPE_ARGS` (spec.py:312-333): ordered association of base
class to the keyword arguments `dict(type=..., format=...)`; `none` format
means the `format` key is absent from the entry. -/
def SCHEMA_SIMPLE_TYPE_ARGS : List (SimpleBase × (String × Option String)) :=
  [ (.str,   ("string",  Option.none)),
    (.int,   ("integer", some "int64")),
    (.float, ("number",  some "double")),
    (.bool,  ("boolean", Option.none)),
    (.list,  ("array",   Option.none)),
    (.tuple, ("array",   Option.none)) ]

/-- A `Schema.from_type` source value (`SchemaSourceType`).  On Python 3.6,
a subscripted generic (`List[int]`, `Dict[str, int]`, `Union[int, str]`)
carries `__args__ = some l` with `l` the (non-empty) argument tuple, while a
bare generic (`List`, `Dict`, `Union`) carries `__args__ = none` (the host
sets the attribute to `None`); likewise its `__origin__` is `None`.
`hintOther` is any other `GenericMeta` instance (a user generic), whose origin
is none of `List`/`Dict`/`Union`.  `propsDict` is a `dict` instance mapping
property name to source type.  `unknown r` is any other non-class value with
`repr` `r` (e.g. `42`). -/
inductive PySource where
  | ty (t : PyType)
  | hintList (args : Option (List PySource))
  | hintDict (args : Option (List PySource))
  | hintUnion (args : Option (List PySource))
  | hintOther (args : Option (List PySource))
  | hintClassVar (arg : PySource)
  | hintAny
  | premade (s : SchemaO)
  | propsDict (props : List (String × PySource))
  | userNoBases (name : String) (members : List (String × PySource))
  | unknown (r : String)
deriving Repr

/-- Host `repr` of a source value.  Subscript arguments and quote characters
are elided (`typing.List` stands for both `typing.List` and
`typing.List[...]`); claims only inspect the `repr` of non-generic sources,
for which this is the full text between the quotes. -/
def pyRepr : PySource → String
  | .ty .str => "<class str>"
  | .ty .int => "<class int>"
  | .ty .float => "<class float>"
  | .ty .bool => "<class bool>"
  | .ty .list => "<class list>"
  | .ty .tuple => "<class tuple>"
  | .ty .dict => "<class dict>"
  | .ty (.otherClass n) => "<class " ++ n ++ ">"
  | .hintList _ => "typing.List"
  | .hintDict _ => "typing.Dict"
  | .hintUnion _ => "typing.Union"
  | .hintOther _ => "typing.Generic"
  | .hintClassVar _ => "typing.ClassVar"
  | .hintAny => "typing.Any"
  | .premade _ => "Schema(...)"
  | .propsDict _ => "{...}"
  | .userNoBases n _ => "<class " ++ n ++ ">"
  | .unknown r => r

/-! ## Keyword arguments to the `Schema` constructor

The handlers build schemas with calls such as `cls(type='array', items=items,
**kwargs)`.  `attrs` generates `Schema.__init__` from the declared attributes
(the private `_type` becomes init parameter `type`); an unknown keyword —
notably `fallback_handler`, which `from_type_hint` passes in its `Union`
branch — raises `TypeError`, as does a keyword repeated between the explicit
arguments and `**kwargs`. -/

/-- A keyword-argument value in a `Schema(...)` call. -/
inductive SArg where
  | sStr (s : String)
  | sSchema (x : SchemaO)
  | sSchemaList (xs : List SchemaO)
  | sProps (ps : List (String × SchemaO))
  | sSkip
  /-- the `fallback_handler=fallback_handler` keyword of the `Union` branch -/
  | sFallback
deriving Repr

/-- Keyword list for a `Schema(...)` call (explicit keywords followed by the
expanded `**kwargs`). -/
abbrev Args := List (String × SArg)

/-- Builder state: the six modelled `Schema` attributes plus the set of
keywords already consumed (for duplicate detection). -/
structure SchemaBuild where
  type : Option String := Option.none
  format : Option String := Option.none
  items : Option SchemaO := Option.none
  additionalProperties : Option SchemaO := Option.none
  anyOf : Option (List SchemaO) := Option.none
  properties : Option (List (String × SchemaO)) := Option.none
  seen : List String := []

/-- One step of the generated `Schema.__init__`: accept a keyword.  Only the
attributes reachable from the embedded compiler are modelled; every keyword
the embedded code actually passes is listed, anything else (in particular
`fallback_handler`) raises `TypeError` exactly as the `attrs` `__init__`
does for a non-attribute keyword. -/
def schemaSetArg (b : SchemaBuild) (kv : String × SArg) : Except PyErr SchemaBuild :=
  if kv.1 ∈ b.seen then
    .error (.typeError ("Schema.__init__ got multiple values for keyword argument " ++ kv.1))
  else
    let b := { b with seen := kv.1 :: b.seen }
    match kv.1, kv.2 with
    | "type", .sStr s => .ok { b with type := some s }
    | "type", .sSkip => .ok b
    | "format", .sStr s => .ok { b with format := some s }
    | "items", .sSchema x => .ok { b with items := some x }
    | "items", .sSkip => .ok b
    | "additional_properties", .sSchema x => .ok { b with additionalProperties := some x }
    | "additional_properties", .sSkip => .ok b
    | "any_of", .sSchemaList xs => .ok { b with anyOf := some xs }
    | "properties", .sProps ps => .ok { b with properties := some ps }
    | n, _ => .error (.typeError ("Schema.__init__ got an unexpected keyword argument " ++ n))

/-- `Schema(**args)`: fold the keywords, then read off the attrs instance. -/
def schemaFromArgs (args : Args) : Except PyErr SchemaO := do
  let b ← args.foldlM schemaSetArg {}
  .ok (.sch b.type b.format b.items b.additionalProperties b.anyOf b.properties)

/-! ## The dispatch loop of `Schema.from_type` (spec.py:390-458)

`from_type` first passes a pre-made `Schema`/`Reference` through unchanged,
then tries the handlers `from_type_hint`, `from_builtin_simple_type`,
`from_properties` (enabled iff `isinstance(source, dict)`) and
`from_user_type` (enabled iff `source` is a class with empty `__bases__`)
in that order.  A handler raising `SchemaHelperUnhandled` abstains and the
loop continues; a `SchemaHelperError` propagates; any other exception is
wrapped as `SchemaHelperError('Could not create schema from {source!r}')`.
After the loop, the fallback handler (if any) is consulted; if it returns
`None` (or there is none), `SchemaHelperError('Can not create schema from
type: {source!r}')` is raised. -/

/-- An optional `fallback_handler: (source, kwargs) -> Optional[Schema]`. -/
abbrev Fallback := Option (PySource → Args → Option SchemaO)

/-- The `try/except` dispositions of one loop iteration in `from_type`:
`none` means the handler abstained (`SchemaHelperUnhandled`) and the loop
continues; `some r` means the loop returns/raises `r`. -/
def stepResult (srcRepr : String) : Except PyErr SchemaO → Option (Except PyErr SchemaO)
  | .ok s => some (.ok s)
  | .error (.schemaHelperUnhandled _) => Option.none
  | .error (.schemaHelperError m) => some (.error (.schemaHelperError m))
  | .error _ =>
      some (.error (.schemaHelperError ("Could not create schema from " ++ srcRepr)))

/-- `try: ... except SchemaHelperError: raise SchemaHelperError(msg)`:
re-wrap a `SchemaHelperError` with a new message, let anything else through. -/
def wrapSHE {α : Type} (msg : String) : Except PyErr α → Except PyErr α
  | .error (.schemaHelperError _) => .error (.schemaHelperError msg)
  | r => r

/-- The post-handler tail of `from_type`: consult the fallback handler, else
raise the final resolution error naming the source. -/
def fallbackFinish (fb : Fallback) (kwargs : Args) (s : PySource) : Except PyErr SchemaO :=
  match fb with
  | some f =>
      match f s kwargs with
      | some sc => .ok sc
      | Option.none =>
          .error (.schemaHelperError ("Can not create schema from type: " ++ pyRepr s))
  | Option.none =>
      .error (.schemaHelperError ("Can not create schema from type: " ++ pyRepr s))

/-- The handler loop of `from_type`, given the (already evaluated) result of
`from_type_hint` (`h1`) and, when one of them is enabled for this source, the
result of `from_properties`/`from_user_type` (`h34`; `none` when both are
disabled).  `from_builtin_simple_type` never recurses, so it is called here
directly. -/
def runHandlers (fb : Fallback) (kwargs : Args) (s : PySource)
    (h1 : Except PyErr SchemaO) (h34 : Option (Except PyErr SchemaO)) :
    Except PyErr SchemaO :=
  match stepResult (pyRepr s) h1 with
  | some r => r
  | Option.none =>
    match stepResult (pyRepr s) (fromBuiltinSimpleTypeRes kwargs s) with
    | some r => r
    | Option.none =>
      match h34 with
      | some h =>
        match stepResult (pyRepr s) h with
        | some r => r
        | Option.none => fallbackFinish fb kwargs s
      | Option.none => fallbackFinish fb kwargs s
where
  /-- `Schema.from_builtin_simple_type` (spec.py:664-709): reject non-class
  sources with `SchemaHelperUnhandled('{source!r} is not a type')`; otherwise
  scan `SCHEMA_SIMPLE_TYPE_ARGS` in order for the first entry whose key the
  source subclasses and build `cls(**params, **kwargs)`; if none matches,
  raise `SchemaHelperUnhandled('{type} is not a subclass of any of
  {simple_types}')` (the `{type}` there is `type(source)`, i.e. the
  metaclass `type`). -/
  fromBuiltinSimpleTypeRes (kwargs : Args) (s : PySource) : Except PyErr SchemaO :=
    match s with
    | .ty t =>
        match SCHEMA_SIMPLE_TYPE_ARGS.find? (fun e => issubclass t e.1) with
        | some e =>
            schemaFromArgs
              (("type", .sStr e.2.1) ::
                ((match e.2.2 with
                  | some f => [("format", SArg.sStr f)]
                  | Option.none => []) ++ kwargs))
        | Option.none =>
            .error (.schemaHelperUnhandled
              "<class type> is not a subclass of any of dict_keys(...)")
    | .userNoBases _ _ =>
        .error (.schemaHelperUnhandled
          "<class type> is not a subclass of any of dict_keys(...)")
    | _ => .error (.schemaHelperUnhandled (pyRepr s ++ " is not a type"))

/-- `Schema.from_builtin_simple_type`, standalone (same definition as the
loop-internal copy). -/
def Schema.from_builtin_simple_type (kwargs : Args) (s : PySource) :
    Except PyErr SchemaO :=
  runHandlers.fromBuiltinSimpleTypeRes kwargs s

/-- `items = SKIP; if hint_arg_types: items = hint_arg_types[0]` -/
def itemsArg : List SchemaO → SArg
  | [] => .sSkip
  | h :: _ => .sSchema h

/-- `value_schema = SKIP; if len(hint_arg_types) >= 2: value_schema =
hint_arg_types[1]` -/
def valueArg : List SchemaO → SArg
  | _ :: v :: _ => .sSchema v
  | _ => .sSkip

mutual

/-- `Schema.from_type` (spec.py:390-458).  Pre-made `Schema`/`Reference`
values pass through; otherwise the handler loop runs (see `runHandlers`),
with the `from_type_hint` result and the enabled `from_properties` /
`from_user_type` result computed per source constructor:

* `from_type_hint` (spec.py:554-662): a `_ClassVar` recurses into its
  `__type__` (forwarding `**kwargs`); `Any` yields `cls()`; a non-generic
  source abstains with `'{hint} is not a type hint.'`.  For a generic, the
  argument list `hint.__args__` is compiled first (on Python 3.6 a bare
  generic stores `None` there, so iterating it raises `TypeError`; a nested
  `SchemaHelperError` is re-raised as `'Could not create schemas for type
  hint argument types. Hint: {hint}'`).  Then by origin: `List` builds
  `cls(type='array', items=items, **kwargs)`; `Union` with arguments calls
  `cls(any_of=hint_arg_types, fallback_handler=fallback_handler, **kwargs)`
  (passing `fallback_handler` to the constructor verbatim) and with no
  arguments returns `cls()`; `Dict` builds `cls(type='object',
  additional_properties=value_schema, **kwargs)`; any other generic raises
  `SchemaHelperError('Unsupported type hint: {hint}')` after compiling its
  arguments.  (The trailing `origin is ClassVar` check in the source is
  unreachable on Python 3.6, where `_ClassVar` instances are caught by the
  first `isinstance`.)
* `from_properties` (spec.py:499-552), enabled for `dict` sources: builds
  `cls(type='object', properties={k: from_type(v)}, **kwargs)`, re-raising a
  nested `SchemaHelperError` as `'Exception when creating schema from:
  {properties}'`.
* `from_user_type` (spec.py:460-497), enabled for classes with empty
  `__bases__`: `from_properties` over the members whose name does not start
  with `_` (the filter is fused into `mapProperties`). -/
def Schema.from_type (fb : Fallback) (kwargs : Args) :
    PySource → Except PyErr SchemaO
  | .premade sc => .ok sc
  | .ty t =>
      runHandlers fb kwargs (.ty t)
        (.error (.schemaHelperUnhandled (pyRepr (.ty t) ++ " is not a type hint.")))
        Option.none
  | .unknown r =>
      runHandlers fb kwargs (.unknown r)
        (.error (.schemaHelperUnhandled (r ++ " is not a type hint.")))
        Option.none
  | .hintAny => runHandlers fb kwargs .hintAny (.ok emptySchema) Option.none
  | .hintClassVar a =>
      runHandlers fb kwargs (.hintClassVar a)
        (Schema.from_type fb kwargs a) Option.none
  | .hintList args =>
      runHandlers fb kwargs (.hintList args)
        (match args with
         | Option.none => .error (.typeError "NoneType object is not iterable")
         | some l =>
            match wrapSHE
                ("Could not create schemas for type hint argument types. Hint: "
                  ++ pyRepr (.hintList args))
                (Schema.mapArgs fb l) with
            | .error e => .error e
            | .ok xs =>
                schemaFromArgs
                  (("type", .sStr "array") :: ("items", itemsArg xs) :: kwargs))
        Option.none
  | .hintUnion args =>
      runHandlers fb kwargs (.hintUnion args)
        (match args with
         | Option.none => .error (.typeError "NoneType object is not iterable")
         | some l =>
            match wrapSHE
                ("Could not create schemas for type hint argument types. Hint: "
                  ++ pyRepr (.hintUnion args))
                (Schema.mapArgs fb l) with
            | .error e => .error e
            | .ok [] => .ok emptySchema
            | .ok xs =>
                schemaFromArgs
                  (("any_of", .sSchemaList xs) :: ("fallback_handler", .sFallback)
                    :: kwargs))
        Option.none
  | .hintDict args =>
      runHandlers fb kwargs (.hintDict args)
        (match args with
         | Option.none => .error (.typeError "NoneType object is not iterable")
         | some l =>
            match wrapSHE
                ("Could not create schemas for type hint argument types. Hint: "
                  ++ pyRepr (.hintDict args))
                (Schema.mapArgs fb l) with
            | .error e => .error e
            | .ok xs =>
                schemaFromArgs
                  (("type", .sStr "object") :: ("additional_properties", valueArg xs)
                    :: kwargs))
        Option.none
  | .hintOther args =>
      runHandlers fb kwargs (.hintOther args)
        (match args with
         | Option.none => .error (.typeError "NoneType object is not iterable")
         | some l =>
            match wrapSHE
                ("Could not create schemas for type hint argument types. Hint: "
                  ++ pyRepr (.hintOther args))
                (Schema.mapArgs fb l) with
            | .error e => .error e
            | .ok _ =>
                .error (.schemaHelperError
                  ("Unsupported type hint: " ++ pyRepr (.hintOther args))))
        Option.none
  | .propsDict ps =>
      runHandlers fb kwargs (.propsDict ps)
        (.error (.schemaHelperUnhandled (pyRepr (.propsDict ps) ++ " is not a type hint.")))
        (some (wrapSHE "Exception when creating schema from: {...}"
          (match Schema.mapProperties fb false ps with
           | .error e => .error e
           | .ok xs =>
              schemaFromArgs
                (("type", .sStr "object") :: ("properties", .sProps xs) :: kwargs))))
  | .userNoBases n ms =>
      runHandlers fb kwargs (.userNoBases n ms)
        (.error (.schemaHelperUnhandled (pyRepr (.userNoBases n ms) ++ " is not a type hint.")))
        (some (wrapSHE "Exception when creating schema from: {...}"
          (match Schema.mapProperties fb true ms with
           | .error e => .error e
           | .ok xs =>
              schemaFromArgs
                (("type", .sStr "object") :: ("properties", .sProps xs) :: kwargs))))

/-- `[Schema.from_type(arg, fallback_handler=fallback_handler) for arg in
hint.__args__]`: the nested calls forward only the fallback handler, not the
keyword overrides. -/
def Schema.mapArgs (fb : Fallback) : List PySource → Except PyErr (List SchemaO)
  | [] => .ok []
  | a :: rest =>
      match Schema.from_type fb [] a with
      | .error e => .error e
      | .ok s =>
          match Schema.mapArgs fb rest with
          | .error e => .error e
          | .ok xs => .ok (s :: xs)

/-- `{key: Schema.from_type(value, fallback_handler=fallback_handler) for key,
value in properties.items()}`; with `filterUnderscore = true` this is the
`from_user_type` variant, whose comprehension keeps only members not starting
with `_`. -/
def Schema.mapProperties (fb : Fallback) (filterUnderscore : Bool) :
    List (String × PySource) → Except PyErr (List (String × SchemaO))
  | [] => .ok []
  | (k, v) :: rest =>
      if filterUnderscore && k.startsWith "_" then
        Schema.mapProperties fb filterUnderscore rest
      else
        match Schema.from_type fb [] v with
        | .error e => .error e
        | .ok s =>
            match Schema.mapProperties fb filterUnderscore rest with
            | .error e => .error e
            | .ok xs => .ok ((k, s) :: xs)

end

/-- `Schema.from_type_hint`, standalone: identical to the per-constructor
first-handler expressions inside `Schema.from_type` (see the coherence lemma
`from_type_eq_handler_loop`). -/
def Schema.from_type_hint (fb : Fallback) (kwargs : Args) :
    PySource → Except PyErr SchemaO
  | .hintAny => .ok emptySchema
  | .hintClassVar a => Schema.from_type fb kwargs a
  | .hintList args =>
      (match args with
       | Option.none => .error (.typeError "NoneType object is not iterable")
       | some l =>
          match wrapSHE
              ("Could not create schemas for type hint argument types. Hint: "
                ++ pyRepr (.hintList args))
              (Schema.mapArgs fb l) with
          | .error e => .error e
          | .ok xs =>
              schemaFromArgs
                (("type", .sStr "array") :: ("items", itemsArg xs) :: kwargs))
  | .hintUnion args =>
      (match args with
       | Option.none => .error (.typeError "NoneType object is not iterable")
       | some l =>
          match wrapSHE
              ("Could not create schemas for type hint argument types. Hint: "
                ++ pyRepr (.hintUnion args))
              (Schema.mapArgs fb l) with
          | .error e => .error e
          | .ok [] => .ok emptySchema
          | .ok xs =>
              schemaFromArgs
                (("any_of", .sSchemaList xs) :: ("fallback_handler", .sFallback)
                  :: kwargs))
  | .hintDict args =>
      (match args with
       | Option.none => .error (.typeError "NoneType object is not iterable")
       | some l =>
          match wrapSHE
              ("Could not create schemas for type hint argument types. Hint: "
                ++ pyRepr (.hintDict args))
              (Schema.mapArgs fb l) with
          | .error e => .error e
          | .ok xs =>
              schemaFromArgs
                (("type", .sStr "object") :: ("additional_properties", valueArg xs)
                  :: kwargs))
  | .hintOther args =>
      (match args with
       | Option.none => .error (.typeError "NoneType object is not iterable")
       | some l =>
          match wrapSHE
              ("Could not create schemas for type hint argument types. Hint: "
                ++ pyRepr (.hintOther args))
              (Schema.mapArgs fb l) with
          | .error e => .error e
          | .ok _ =>
              .error (.schemaHelperError
                ("Unsupported type hint: " ++ pyRepr (.hintOther args))))
  | s => .error (.schemaHelperUnhandled (pyRepr s ++ " is not a type hint."))

/-- `Schema.from_properties`, standalone. -/
def Schema.from_properties (fb : Fallback) (kwargs : Args)
    (ps : List (String × PySource)) : Except PyErr SchemaO :=
  wrapSHE "Exception when creating schema from: {...}"
    (match Schema.mapProperties fb false ps with
     | .error e => .error e
     | .ok xs =>
        schemaFromArgs
          (("type", .sStr "object") :: ("properties", .sProps xs) :: kwargs))

/-- `Schema.from_user_type`, standalone: `from_properties` over the public
(non-underscore) members. -/
def Schema.from_user_type (fb : Fallback) (kwargs : Args)
    (ms : List (String × PySource)) : Except PyErr SchemaO :=
  wrapSHE "Exception when creating schema from: {...}"
    (match Schema.mapProperties fb true ms with
     | .error e => .error e
     | .ok xs =>
        schemaFromArgs
          (("type", .sStr "object") :: ("properties", .sProps xs) :: kwargs))

/-- Enablement of the third and fourth handlers in the `from_type` loop:
`from_properties` runs iff `isinstance(source, dict)`, `from_user_type` runs
iff the source is a class with empty `__bases__`; both are otherwise skipped
(`continue` without being called). -/
def enabledHandler34 (fb : Fallback) (kwargs : Args) :
    PySource → Option (Except PyErr SchemaO)
  | .propsDict ps => some (Schema.from_properties fb kwargs ps)
  | .userNoBases _ ms => some (Schema.from_user_type fb kwargs ms)
  | _ => Option.none

/-- Coherence of the inlined dispatch: for every source that is not a
pre-made `Schema`/`Reference`, `from_type` is exactly the handler loop run on
the standalone handlers, with `from_properties` enabled for `dict` sources
and `from_user_type` for base-less classes, and nothing else enabled. -/
theorem from_type_eq_handler_loop (fb : Fallback) (kwargs : Args) (s : PySource)
    (h : ∀ sc, s ≠ .premade sc) :
    Schema.from_type fb kwargs s =
      runHandlers fb kwargs s (Schema.from_type_hint fb kwargs s)
        (enabledHandler34 fb kwargs s) := by
  revert h
  cases s <;> intro h
  case premade sc => exact absurd rfl (h sc)
  all_goals (rw [Schema.from_type.eq_def]; rfl)

/-- A loop iteration never lets a handler outcome through as
`SchemaHelperUnhandled`: `some r` implies `r` is a success or a
`SchemaHelperError`. -/
theorem stepResult_not_unhandled (rep : String) (h : Except PyErr SchemaO)
    (r : Except PyErr SchemaO) (hr : stepResult rep h = some r) :
    ∀ m, r ≠ .error (.schemaHelperUnhandled m) := by
  intro m
  cases h with
  | ok s => cases hr; simp
  | error e =>
    cases e with
    | schemaHelperUnhandled m' => simp [stepResult] at hr
    | schemaHelperError m' => cases hr; simp
    | typeError m' => cases hr; simp
    | valueError m' => cases hr; simp
    | attributeError m' => cases hr; simp

/-- The post-loop tail never raises `SchemaHelperUnhandled` either. -/
theorem fallbackFinish_not_unhandled (fb : Fallback) (kwargs : Args)
    (s : PySource) : ∀ m,
    fallbackFinish fb kwargs s ≠ .error (.schemaHelperUnhandled m) := by
  intro m
  cases fb with
  | none => simp [fallbackFinish]
  | some f =>
    simp only [fallbackFinish]
    cases f s kwargs <;> simp

/-- The dispatch loop never surfaces `SchemaHelperUnhandled`. -/
theorem runHandlers_not_unhandled (fb : Fallback) (kwargs : Args)
    (s : PySource) (h1 : Except PyErr SchemaO)
    (h34 : Option (Except PyErr SchemaO)) : ∀ m,
    runHandlers fb kwargs s h1 h34 ≠ .error (.schemaHelperUnhandled m) := by
  intro m
  unfold runHandlers
  cases hs1 : stepResult (pyRepr s) h1 with
  | some r => exact stepResult_not_unhandled _ _ _ hs1 m
  | none =>
    cases hs2 : stepResult (pyRepr s)
        (runHandlers.fromBuiltinSimpleTypeRes kwargs s) with
    | some r => simp only; exact stepResult_not_unhandled _ _ _ hs2 m
    | none =>
      cases h34 with
      | none => simp only; exact fallbackFinish_not_unhandled fb kwargs s m
      | some h =>
        simp only
        cases hs3 : stepResult (pyRepr s) h with
        | some r => exact stepResult_not_unhandled _ _ _ hs3 m
        | none => exact fallbackFinish_not_unhandled fb kwargs s m

/-- `from_type` itself never raises `SchemaHelperUnhandled`: abstention is an
internal protocol between the dispatch loop and its handlers. -/
theorem from_type_never_unhandled (fb : Fallback) (kwargs : Args)
    (s : PySource) (m : String) :
    Schema.from_type fb kwargs s ≠ .error (.schemaHelperUnhandled m) := by
  cases s
  case premade sc => rw [Schema.from_type.eq_def]; simp
  all_goals (rw [Schema.from_type.eq_def]; exact runHandlers_not_unhandled _ _ _ _ _ m)

/-! ## Claims about the type-to-schema compiler -/

/-- C1: the claim states that compiling the `bool` primitive produces
`{"type": "boolean"}` because the lookup table is consulted in an order that
tests `bool` before `int`.  The code violates this: `SCHEMA_SIMPLE_TYPE_ARGS`
is iterated in insertion order `str, int, float, bool, list, tuple`, and
since `issubclass(bool, int)` holds in the host, the `int` entry wins, so
`Schema.from_type(bool)` yields `{"type": "integer", "format": "int64"}`,
not `{"type": "boolean"}` (the table does contain a `bool` entry with
`type='boolean'`, but it is unreachable for `bool`). -/
theorem C1_bool_source_misclassified_as_integer :
    Schema.from_type Option.none [] (.ty .bool) =
      .ok (.sch (some "integer") (some "int64")
            Option.none Option.none Option.none Option.none) ∧
    Schema.from_type Option.none [] (.ty .bool) ≠
      .ok (.sch (some "boolean") Option.none
            Option.none Option.none Option.none Option.none) := by
  refine ⟨rfl, ?_⟩
  intro h
  rw [show Schema.from_type Option.none [] (.ty .bool) =
        .ok (.sch (some "integer") (some "int64")
              Option.none Option.none Option.none Option.none) from rfl] at h
  simp at h

/-- C8: the `str`, `int` and `float` primitives compile to exactly the
documented fragments — `{"type": "string"}`,
`{"type": "integer", "format": "int64"}`,
`{"type": "number", "format": "double"}` — with every other schema keyword
left unset. -/
theorem C8_primitive_fragments :
    Schema.from_type Option.none [] (.ty .str) =
      .ok (.sch (some "string") Option.none
            Option.none Option.none Option.none Option.none) ∧
    Schema.from_type Option.none [] (.ty .int) =
      .ok (.sch (some "integer") (some "int64")
            Option.none Option.none Option.none Option.none) ∧
    Schema.from_type Option.none [] (.ty .float) =
      .ok (.sch (some "number") (some "double")
            Option.none Option.none Option.none Option.none) :=
  ⟨rfl, rfl, rfl⟩

/-- C2: the claim states that a union with at least one alternative compiles
to `{anyOf: [...]}`.  The code violates this: the `Union` branch of
`from_type_hint` calls `cls(any_of=hint_arg_types,
fallback_handler=fallback_handler, **kwargs)`, and the `attrs`-generated
`Schema.__init__` rejects the unknown keyword `fallback_handler` with
`TypeError`, which the dispatch loop wraps into `SchemaHelperError`; so
compiling `Union[int, str]` fails (second conjunct pinpoints the
constructor-level `TypeError`).  The zero-alternative branch of the source
(`else: return cls()`) does return the unconstrained schema `{}` (third
conjunct), though on the Python 3.6 host a bare `Union` stores `None` in
`__args__` and compiling it fails while iterating that `None` (fourth
conjunct); `Union[()]` is rejected by `typing` itself. -/
theorem C2_union_compile :
    Schema.from_type Option.none [] (.hintUnion (some [.ty .int, .ty .str])) =
      .error (.schemaHelperError "Could not create schema from typing.Union") ∧
    Schema.from_type_hint Option.none [] (.hintUnion (some [.ty .int, .ty .str])) =
      .error (.typeError
        "Schema.__init__ got an unexpected keyword argument fallback_handler") ∧
    Schema.from_type_hint Option.none [] (.hintUnion (some [])) =
      .ok emptySchema ∧
    Schema.from_type Option.none [] (.hintUnion Option.none) =
      .error (.schemaHelperError "Could not create schema from typing.Union") :=
  ⟨rfl, rfl, rfl, rfl⟩

/-- C7 (counterexample): the claim states that compiling a parameterless
sequence descriptor yields `{type: "array"}` with no `items` key.  On the
Python 3.6 host the parameterless descriptor is the bare `typing.List`,
whose `__args__` attribute is `None`; `from_type_hint` iterates it, raising
`TypeError`, which the dispatch loop wraps into `SchemaHelperError` — so the
compile fails instead of returning `{type: "array"}`. -/
theorem C7_parameterless_sequence_fails :
    Schema.from_type Option.none [] (.hintList Option.none) =
      .error (.schemaHelperError "Could not create schema from typing.List") ∧
    Schema.from_type Option.none [] (.hintList Option.none) ≠
      .ok (.sch (some "array") Option.none
            Option.none Option.none Option.none Option.none) := by
  refine ⟨rfl, ?_⟩
  intro h
  rw [show Schema.from_type Option.none [] (.hintList Option.none) =
        .error (.schemaHelperError "Could not create schema from typing.List")
      from rfl] at h
  simp at h

/-- C7 (amended): compiling `sequence-of(T)` yields
`{type: "array", items: compile(T)}` whenever `compile(T)` succeeds; the
parameterless sequence descriptor does not yield `{type: "array"}` but fails
with a `SchemaHelperError` (on the host, bare `List.__args__` is `None` and
iterating it raises `TypeError`, which the dispatch loop wraps). -/
theorem C7_sequence_of (t : PySource) (s : SchemaO)
    (h : Schema.from_type Option.none [] t = .ok s) :
    Schema.from_type Option.none [] (.hintList (some [t])) =
      .ok (.sch (some "array") Option.none (some s)
            Option.none Option.none Option.none) ∧
    Schema.from_type Option.none [] (.hintList Option.none) =
      .error (.schemaHelperError "Could not create schema from typing.List") := by
  refine ⟨?_, rfl⟩
  have hm : Schema.mapArgs Option.none [t] = .ok [s] := by
    have h1 : Schema.mapArgs Option.none [t] =
        (match Schema.from_type Option.none [] t with
         | .error e => .error e
         | .ok s' =>
            match Schema.mapArgs Option.none [] with
            | .error e => .error e
            | .ok xs => .ok (s' :: xs)) := by
      rw [Schema.mapArgs.eq_def]
    rw [h1, h]
    rfl
  rw [Schema.from_type.eq_def]
  show runHandlers Option.none [] (.hintList (some [t]))
      (match wrapSHE
          ("Could not create schemas for type hint argument types. Hint: "
            ++ pyRepr (.hintList (some [t])))
          (Schema.mapArgs Option.none [t]) with
        | .error e => .error e
        | .ok xs =>
            schemaFromArgs (("type", .sStr "array") :: ("items", itemsArg xs) :: []))
      Option.none = _
  rw [hm]
  rfl

/-- Witness for `C7_sequence_of` at `T = str`. -/
theorem C7_sequence_of_witness :
    Schema.from_type Option.none [] (.hintList (some [.ty .str])) =
      .ok (.sch (some "array") Option.none
            (some (.sch (some "string") Option.none
              Option.none Option.none Option.none Option.none))
            Option.none Option.none Option.none) :=
  (C7_sequence_of (.ty .str)
    (.sch (some "string") Option.none Option.none Option.none Option.none Option.none)
    rfl).1

/-- C9: when every classification step abstains on a source (here: any
non-class, non-hint value of `repr` `r`) and the fallback resolver is absent
or returns `None`, `from_type` raises `SchemaHelperError('Can not create
schema from type: {source!r}')` naming the source; the individual handlers
abstain with `SchemaHelperUnhandled` (second and third conjuncts), and that
exception is caught by the dispatch loop and never surfaced to the caller
for any source whatsoever (fourth conjunct). -/
theorem C9_exhaustion_resolution_error (r : String) (fb : Fallback) (kwargs : Args)
    (hfb : fb = Option.none ∨ ∃ f, fb = some f ∧ f (.unknown r) kwargs = Option.none) :
    Schema.from_type fb kwargs (.unknown r) =
      .error (.schemaHelperError ("Can not create schema from type: " ++ r)) ∧
    Schema.from_type_hint fb kwargs (.unknown r) =
      .error (.schemaHelperUnhandled (r ++ " is not a type hint.")) ∧
    Schema.from_builtin_simple_type kwargs (.unknown r) =
      .error (.schemaHelperUnhandled (r ++ " is not a type")) ∧
    (∀ (s : PySource) (fb2 : Fallback) (kw2 : Args) (m : String),
      Schema.from_type fb2 kw2 s ≠ .error (.schemaHelperUnhandled m)) := by
  refine ⟨?_, rfl, rfl, fun s fb2 kw2 m => from_type_never_unhandled fb2 kw2 s m⟩
  rw [Schema.from_type.eq_def]
  show fallbackFinish fb kwargs (.unknown r) = _
  rcases hfb with hnone | ⟨f, hf, hres⟩
  · rw [hnone]; rfl
  · rw [hf]
    show (match f (.unknown r) kwargs with
          | some sc => (Except.ok sc : Except PyErr SchemaO)
          | Option.none =>
              Except.error (PyErr.schemaHelperError
                ("Can not create schema from type: " ++ pyRepr (PySource.unknown r)))) =
        Except.error (PyErr.schemaHelperError ("Can not create schema from type: " ++ r))
    rw [hres]
    rfl

/-- Witness for `C9_exhaustion_resolution_error` with source `42` and no
fallback handler. -/
theorem C9_exhaustion_witness :
    Schema.from_type Option.none [] (.unknown "42") =
      .error (.schemaHelperError "Can not create schema from type: 42") :=
  (C9_exhaustion_resolution_error "42" Option.none [] (Or.inl rfl)).1

/-! ## Sentinels, field declarations and `attrs` construction
(spec.py:68-159 and the entity classes built from them)

`attr_skippable()` declares a field with default `SKIP` and no validator;
`attr_required()` declares a field whose default is `REQUIRED` (unless
overridden) and *prepends* `validate_required` to its validator list.  The
`attrs`-generated `__init__` of an entity: rejects unknown keywords with
`TypeError`; then, in declaration order, applies each field's converter to
the supplied value (or the default) and assigns it; then runs each field's
validators in declaration order.  `validate_required` raises
`ValueError('Missing required attribute: {attribute_name} for type
{type}.')` iff the value is the `REQUIRED` sentinel.  The only converter a
`spec.py` entity attaches to an `attr_required` field is `enum_to_string`
(`Parameter.in_`), which returns `member.value` and hence raises
`AttributeError` on any value without a `.value` attribute (`None`, strings,
the sentinels, ...). -/

/-- Python values flowing through entity construction: the two sentinels,
`None`, strings, enum members (carrying their `.value` string), and opaque
legal objects (dicts, nested entities, ...). -/
inductive Value where
  | skip
  | required
  | none
  | str (s : String)
  | enumMember (v : String)
  | obj (n : Nat)
deriving Repr, DecidableEq

/-- The converters attached to entity fields in `spec.py` (only
`enum_to_string` appears on a required field; `convert_skippable(set)` sits
on the skippable `Schema.required` field, which no claim exercises). -/
inductive Conv where
  | enumToString
deriving Repr, DecidableEq

/-- Apply `enum_to_string` (`member.value`): only an enum member has a
`.value` attribute. -/
def applyConv : Conv → Value → Except PyErr Value
  | .enumToString, .enumMember s => .ok (.str s)
  | .enumToString, .none =>
      .error (.attributeError "NoneType object has no attribute value")
  | .enumToString, _ =>
      .error (.attributeError "object has no attribute value")

/-- `attrs` converter slot: absent means the value is stored unchanged. -/
def applyConvOpt : Option Conv → Value → Except PyErr Value
  | Option.none, v => .ok v
  | some c, v => applyConv c v

/-- The validators attached to entity fields in `spec.py`:
`validate_required` (spec.py:119-131) and `attr.validators.instance_of(str)`
(on `Info.version` / `OpenAPI.openapi`). -/
inductive Validator where
  | validateRequired
  | instanceOfStr
deriving Repr, DecidableEq

/-- The `ValueError` message of `validate_required` ( `{type}` renders the
entity class; quoting elided). -/
def reqMsg (fieldName entity : String) : String :=
  "Missing required attribute: " ++ fieldName ++ " for type " ++ entity ++ "."

/-- Run one validator on one (converted) field value. -/
def runValidator (entity fieldName : String) : Validator → Value → Except PyErr Unit
  | .validateRequired, v =>
      if v = .required then .error (.valueError (reqMsg fieldName entity)) else .ok ()
  | .instanceOfStr, v =>
      match v with
      | .str _ => .ok ()
      | _ => .error (.typeError "instance_of validator expected a str instance")

/-- Run a field's validator list in order (first failure wins). -/
def runValidators (entity fieldName : String) :
    List Validator → Value → Except PyErr Unit
  | [], _ => .ok ()
  | val :: rest, v =>
      match runValidator entity fieldName val v with
      | .error e => .error e
      | .ok _ => runValidators entity fieldName rest v

/-- One declared entity field: name, default, optional converter, validator
list (in execution order). -/
structure FieldSpec where
  name : String
  default : Value
  conv : Option Conv
  validators : List Validator
deriving Repr, DecidableEq

/-- `attr_skippable()`: default `SKIP`, no converter, no validator. -/
def attr_skippable (name : String) : FieldSpec :=
  ⟨name, .skip, Option.none, []⟩

/-- `attr_required()` with no extra arguments: default `REQUIRED`,
`validate_required` prepended to the (empty) validator list. -/
def attr_required (name : String) : FieldSpec :=
  ⟨name, .required, Option.none, [.validateRequired]⟩

/-- `attr_required(default=..., convert=...)` (used by `Parameter.in_`):
the default and converter are overridden but `validate_required` is still
prepended. -/
def attr_required_with (name : String) (default : Value) (conv : Option Conv) :
    FieldSpec :=
  ⟨name, default, conv, [.validateRequired]⟩

/-- First-match keyword lookup. -/
def lookupKw : List (String × Value) → String → Option Value
  | [], _ => Option.none
  | (k, v) :: rest, n => if k = n then some v else lookupKw rest n

/-- The value assigned to a field: the supplied keyword, else the default. -/
def selectValue (kwargs : List (String × Value)) (f : FieldSpec) : Value :=
  match lookupKw kwargs f.name with
  | some v => v
  | Option.none => f.default

/-- The value a field holds after conversion. -/
def convertedValue (kwargs : List (String × Value)) (f : FieldSpec) :
    Except PyErr Value :=
  applyConvOpt f.conv (selectValue kwargs f)

/-- Assignment phase of the generated `__init__`: convert and assign each
field in declaration order. -/
def convertFields (kwargs : List (String × Value)) :
    List FieldSpec → Except PyErr (List (FieldSpec × Value))
  | [] => .ok []
  | f :: rest =>
      match convertedValue kwargs f with
      | .error e => .error e
      | .ok v =>
          match convertFields kwargs rest with
          | .error e => .error e
          | .ok fvs => .ok ((f, v) :: fvs)

/-- Validation phase of the generated `__init__`: after all assignments,
run every field's validators in declaration order. -/
def validateFields (entity : String) :
    List (FieldSpec × Value) → Except PyErr Unit
  | [] => .ok ()
  | (f, v) :: rest =>
      match runValidators entity f.name f.validators v with
      | .error e => .error e
      | .ok _ => validateFields entity rest

/-- The `attrs`-generated `__init__` of an entity class: unknown-keyword
check, assignment phase (with converters), validation phase; on success the
entity holds the converted values. -/
def attrs_init (entity : String) (fields : List FieldSpec)
    (kwargs : List (String × Value)) : Except PyErr (List (String × Value)) :=
  if kwargs.all (fun kv => fields.any (fun f => f.name = kv.1)) then
    match convertFields kwargs fields with
    | .error e => .error e
    | .ok fvs =>
        match validateFields entity fvs with
        | .error e => .error e
        | .ok _ => .ok (fvs.map (fun fv => (fv.1.name, fv.2)))
  else .error (.typeError "__init__ got an unexpected keyword argument")

/-- The first field in declaration order whose default is the `REQUIRED`
sentinel and for which no keyword was supplied. -/
def firstOmittedRequired (fields : List FieldSpec)
    (kwargs : List (String × Value)) : Option FieldSpec :=
  fields.find? (fun f => f.default = .required && (lookupKw kwargs f.name).isNone)

/-- All of a field's validators other than `validate_required` accept the
field's converted value (vacuously true if conversion fails). -/
def nonRequiredValidatorsOk (entity : String) (kwargs : List (String × Value))
    (f : FieldSpec) : Bool :=
  match convertedValue kwargs f with
  | .ok v =>
      f.validators.all (fun val =>
        val = .validateRequired || (runValidator entity f.name val v).isOk)
  | .error _ => true

/-! ### Entity field declarations (attrs collects superclass fields first:
`MayBeReferenced.ref_name`, default `None`, is declared before the class's
own fields for `Parameter`/`RequestBody`/`Response`/`Schema`). -/

/-- `Response`: `ref_name` (from `MayBeReferenced`), required `description`,
skippable `content`. -/
def Response.fields : List FieldSpec :=
  [⟨"ref_name", .none, Option.none, []⟩,
   attr_required "description",
   attr_skippable "content"]

/-- `Parameter`: `ref_name`, required `name`, `in_` =
`attr_required(default=ParameterLocation.QUERY, convert=enum_to_string)`,
then the skippable fields. -/
def Parameter.fields : List FieldSpec :=
  [⟨"ref_name", .none, Option.none, []⟩,
   attr_required "name",
   attr_required_with "in_" (.enumMember "query") (some .enumToString),
   attr_skippable "description",
   attr_skippable "required",
   attr_skippable "deprecated",
   attr_skippable "allow_empty_value",
   attr_skippable "schema"]

/-- `Info`: required `title`, four skippable fields, and `version` with
default `'0.0.1-dev'` and an `instance_of(str)` validator. -/
def Info.fields : List FieldSpec :=
  [attr_required "title",
   attr_skippable "description",
   attr_skippable "terms_of_service",
   attr_skippable "contact",
   attr_skippable "license",
   ⟨"version", .str "0.0.1-dev", Option.none, [.instanceOfStr]⟩]

/-! ### Lemmas about construction -/

/-- A successful keyword lookup names a pair of the keyword list. -/
theorem lookupKw_mem (kwargs : List (String × Value)) (n : String) (v : Value)
    (h : lookupKw kwargs n = some v) : (n, v) ∈ kwargs := by
  induction kwargs with
  | nil => simp [lookupKw] at h
  | cons kv rest ih =>
    obtain ⟨k, w⟩ := kv
    simp only [lookupKw] at h
    split at h
    · cases h
      subst_vars
      exact List.mem_cons_self _ _
    · exact List.mem_cons_of_mem _ (ih h)

/-- If every validator in the list accepts the value, the ordered run
succeeds. -/
theorem runValidators_ok (entity n : String) (vals : List Validator) (v : Value)
    (h : ∀ val ∈ vals, runValidator entity n val v = .ok ()) :
    runValidators entity n vals v = .ok () := by
  induction vals with
  | nil => rfl
  | cons val rest ih =>
    rw [runValidators, h val (List.mem_cons_self _ _)]
    exact ih (fun x hx => h x (List.mem_cons_of_mem _ hx))

/-- A converter that succeeds produces the `REQUIRED` sentinel iff it was
given the `REQUIRED` sentinel (the only converter, `enum_to_string`, fails
on the sentinel and never produces one). -/
theorem applyConvOpt_ok_required (c : Option Conv) (v w : Value)
    (h : applyConvOpt c v = .ok w) : (w = .required ↔ v = .required) := by
  cases c with
  | none =>
    simp only [applyConvOpt] at h
    cases h
    rfl
  | some c =>
    cases c
    cases v <;> simp [applyConvOpt, applyConv] at h
    subst h
    simp

/-- The two phases of `__init__` under the hygiene conditions satisfied by
every entity class of `spec.py`: if some required field is omitted, the
validation phase fails with `validate_required`'s message for the first such
field; otherwise construction passes validation and no stored value is the
`REQUIRED` sentinel. -/
theorem initPhases (entity : String) (kwargs : List (String × Value))
    (hlegal : ∀ kv ∈ kwargs, kv.2 ≠ Value.required) :
    ∀ (fields : List FieldSpec),
    (∀ f ∈ fields, f.default = .required → f.validators.head? = some .validateRequired) →
    (∀ f ∈ fields, ∃ v, convertedValue kwargs f = .ok v) →
    (∀ f ∈ fields, nonRequiredValidatorsOk entity kwargs f = true) →
    ((∀ f₀, firstOmittedRequired fields kwargs = some f₀ →
       ∃ fvs, convertFields kwargs fields = .ok fvs ∧
         validateFields entity fvs = .error (.valueError (reqMsg f₀.name entity))) ∧
     (firstOmittedRequired fields kwargs = Option.none →
       ∃ fvs, convertFields kwargs fields = .ok fvs ∧
         validateFields entity fvs = .ok () ∧ ∀ p ∈ fvs, p.2 ≠ Value.required)) := by
  intro fields
  induction fields with
  | nil =>
    intro _ _ _
    refine ⟨?_, ?_⟩
    · intro f₀ h
      simp [firstOmittedRequired] at h
    · intro _
      exact ⟨[], rfl, rfl, by simp⟩
  | cons f rest ih =>
    intro hreq hconv hval
    obtain ⟨v, hv⟩ := hconv f (List.mem_cons_self f rest)
    have ihspec := ih (fun g hg => hreq g (List.mem_cons_of_mem f hg))
                     (fun g hg => hconv g (List.mem_cons_of_mem f hg))
                     (fun g hg => hval g (List.mem_cons_of_mem f hg))
    have restFvs : ∃ fvs, convertFields kwargs rest = .ok fvs := by
      cases hr : firstOmittedRequired rest kwargs with
      | some g =>
        obtain ⟨fvs, hcf, _⟩ := ihspec.1 g hr
        exact ⟨fvs, hcf⟩
      | none =>
        obtain ⟨fvs, hcf, _, _⟩ := ihspec.2 hr
        exact ⟨fvs, hcf⟩
    by_cases hf : f.default = Value.required ∧ lookupKw kwargs f.name = Option.none
    · obtain ⟨hfd, hfl⟩ := hf
      have hvreq : v = Value.required := by
        have hsel : selectValue kwargs f = Value.required := by
          simp [selectValue, hfl, hfd]
        rw [convertedValue, hsel] at hv
        exact (applyConvOpt_ok_required f.conv _ v hv).mpr rfl
      subst hvreq
      have hfirst : firstOmittedRequired (f :: rest) kwargs = some f := by
        rw [firstOmittedRequired, List.find?_cons_of_pos]
        simp [hfd, hfl]
      have hhead := hreq f (List.mem_cons_self f rest) hfd
      obtain ⟨fvs, hcf⟩ := restFvs
      have hcf' : convertFields kwargs (f :: rest) = .ok ((f, Value.required) :: fvs) := by
        rw [convertFields, hv, hcf]
      have hvd : validateFields entity ((f, Value.required) :: fvs) =
          .error (.valueError (reqMsg f.name entity)) := by
        cases hl : f.validators with
        | nil => rw [hl] at hhead; cases hhead
        | cons a tail =>
          rw [hl] at hhead
          have ha : a = Validator.validateRequired := by
            simpa using hhead
          subst ha
          simp [validateFields, hl, runValidators, runValidator]
      refine ⟨?_, ?_⟩
      · intro f₀ h₀
        rw [hfirst] at h₀
        cases h₀
        exact ⟨(f, Value.required) :: fvs, hcf', hvd⟩
      · intro h₀
        rw [hfirst] at h₀
        cases h₀
    · have hpred : (decide (f.default = Value.required) &&
          (lookupKw kwargs f.name).isNone) = false := by
        rcases hlk : lookupKw kwargs f.name with _ | w
        · have hfd : f.default ≠ Value.required := fun hd => hf ⟨hd, hlk⟩
          simp [hfd]
        · simp
      have hfirst : firstOmittedRequired (f :: rest) kwargs =
          firstOmittedRequired rest kwargs := by
        rw [firstOmittedRequired, List.find?_cons_of_neg, firstOmittedRequired]
        simp [hpred]
      have hvne : v ≠ Value.required := by
        intro hveq
        subst hveq
        have hsreq : selectValue kwargs f = Value.required :=
          (applyConvOpt_ok_required f.conv _ _ hv).mp rfl
        rcases hlk : lookupKw kwargs f.name with _ | w
        · have hsel : selectValue kwargs f = f.default := by
            simp [selectValue, hlk]
          exact hf ⟨by rw [← hsel, hsreq], hlk⟩
        · have hsel : selectValue kwargs f = w := by
            simp [selectValue, hlk]
          exact hlegal (f.name, w) (lookupKw_mem kwargs f.name w hlk)
            (hsel.symm.trans hsreq)
      have hallok : ∀ val ∈ f.validators, runValidator entity f.name val v = .ok () := by
        intro val hvmem
        by_cases hvr : val = Validator.validateRequired
        · subst hvr
          simp [runValidator, hvne]
        · have := hval f (List.mem_cons_self f rest)
          rw [nonRequiredValidatorsOk, hv] at this
          have hb := (List.all_eq_true.mp this) val hvmem
          rcases hrun : runValidator entity f.name val v with e | u
          · rw [hrun] at hb
            simp [hvr, Except.isOk, Except.toBool] at hb
          · cases u
            rfl
      have hvok : runValidators entity f.name f.validators v = .ok () :=
        runValidators_ok entity f.name f.validators v hallok
      refine ⟨?_, ?_⟩
      · intro f₀ h₀
        rw [hfirst] at h₀
        obtain ⟨fvs2, hcf2, hvd⟩ := ihspec.1 f₀ h₀
        have hcf' : convertFields kwargs (f :: rest) = .ok ((f, v) :: fvs2) := by
          rw [convertFields, hv, hcf2]
        refine ⟨(f, v) :: fvs2, hcf', ?_⟩
        rw [validateFields, hvok, hvd]
      · intro h₀
        rw [hfirst] at h₀
        obtain ⟨fvs2, hcf2, hok, hnr⟩ := ihspec.2 h₀
        have hcf' : convertFields kwargs (f :: rest) = .ok ((f, v) :: fvs2) := by
          rw [convertFields, hv, hcf2]
        refine ⟨(f, v) :: fvs2, hcf', ?_, ?_⟩
        · rw [validateFields, hvok, hok]
        · intro p hp
          rcases List.mem_cons.mp hp with hp | hp
          · subst hp
            exact hvne
          · exact hnr p hp

/-- C5: for every entity whose field declarations follow the `spec.py`
discipline (required fields are declared through `attr_required`, so
`validate_required` heads their validator list), constructing the entity
with legal keyword values while omitting a `REQUIRED`-defaulted field fails
at construction — before any render call — with `validate_required`'s
`ValueError`, whose message names the (first) missing field and the entity
kind; and a successfully constructed entity never stores the `REQUIRED`
marker in any field.  The hygiene hypotheses (known keywords, successful
conversions, non-required validators passing) hold for every omission
scenario over the declared entity classes; see the witness. -/
theorem C5_required_enforced_at_construction
    (entity : String) (fields : List FieldSpec) (kwargs : List (String × Value))
    (hreq : ∀ f ∈ fields, f.default = .required →
      f.validators.head? = some .validateRequired)
    (hlegal : ∀ kv ∈ kwargs, kv.2 ≠ Value.required)
    (hconv : ∀ f ∈ fields, ∃ v, convertedValue kwargs f = .ok v)
    (hval : ∀ f ∈ fields, nonRequiredValidatorsOk entity kwargs f = true)
    (hkw : kwargs.all (fun kv => fields.any (fun f => f.name = kv.1)) = true) :
    (∀ f₀, firstOmittedRequired fields kwargs = some f₀ →
      attrs_init entity fields kwargs =
        .error (.valueError (reqMsg f₀.name entity))) ∧
    (∀ vals, attrs_init entity fields kwargs = .ok vals →
      ∀ p ∈ vals, p.2 ≠ Value.required) := by
  have hph := initPhases entity kwargs hlegal fields hreq hconv hval
  have hinit : attrs_init entity fields kwargs =
      (match convertFields kwargs fields with
       | .error e => .error e
       | .ok fvs =>
          match validateFields entity fvs with
          | .error e => .error e
          | .ok _ => .ok (fvs.map (fun fv => (fv.1.name, fv.2)))) := by
    rw [attrs_init, if_pos hkw]
  refine ⟨?_, ?_⟩
  · intro f₀ h₀
    obtain ⟨fvs, hcf, hvd⟩ := hph.1 f₀ h₀
    rw [hinit, hcf]
    show (match validateFields entity fvs with
          | .error e => (.error e : Except PyErr (List (String × Value)))
          | .ok _ =>
              .ok (fvs.map (fun fv : FieldSpec × Value => (fv.1.name, fv.2)))) = _
    rw [hvd]
  · intro vals hok p hp
    cases h₀ : firstOmittedRequired fields kwargs with
    | some f₀ =>
      obtain ⟨fvs, hcf, hvd⟩ := hph.1 f₀ h₀
      rw [hinit, hcf] at hok
      have hok2 : (match validateFields entity fvs with
          | .error e => (.error e : Except PyErr (List (String × Value)))
          | .ok _ =>
              .ok (fvs.map (fun fv : FieldSpec × Value => (fv.1.name, fv.2)))) =
          .ok vals := hok
      rw [hvd] at hok2
      cases hok2
    | none =>
      obtain ⟨fvs, hcf, hvd, hnr⟩ := hph.2 h₀
      rw [hinit, hcf] at hok
      have hok2 : (match validateFields entity fvs with
          | .error e => (.error e : Except PyErr (List (String × Value)))
          | .ok _ =>
              .ok (fvs.map (fun fv : FieldSpec × Value => (fv.1.name, fv.2)))) =
          .ok vals := hok
      rw [hvd] at hok2
      have hvals : vals = fvs.map (fun fv : FieldSpec × Value => (fv.1.name, fv.2)) := by
        cases hok2
        rfl
      subst hvals
      obtain ⟨fv, hfv, hfveq⟩ := List.mem_map.mp hp
      rw [← hfveq]
      simpa using hnr fv hfv

/-- Witness for `C5_required_enforced_at_construction`: constructing
`Response()` with no arguments fails with the `ValueError` naming the
omitted required `description` field and the `Response` entity. -/
theorem C5_required_witness :
    attrs_init "Response" Response.fields [] =
      .error (.valueError "Missing required attribute: description for type Response.") := by
  have h := (C5_required_enforced_at_construction "Response" Response.fields []
      (by decide) (by simp)
      (by intro f hf; fin_cases hf <;> exact ⟨_, rfl⟩)
      (by decide) (by decide)).1
      (attr_required "description") (by decide)
  simpa [reqMsg, attr_required] using h

/-- C10 (counterexample): the claim states that explicitly passing `None`
for any `Required` field is accepted at construction.  `Parameter.in_` is a
`Required` field declared with the `enum_to_string` converter; constructing
`Parameter(name='x', in_=None)` fails with `AttributeError` inside
`enum_to_string` (`None` has no `.value`), before `validate_required` ever
runs — construction does not succeed. -/
theorem C10_parameter_in_none_rejected :
    attrs_init "Parameter" Parameter.fields
        [("name", .str "x"), ("in_", Value.none)] =
      .error (.attributeError "NoneType object has no attribute value") ∧
    ∀ vals, attrs_init "Parameter" Parameter.fields
        [("name", .str "x"), ("in_", Value.none)] ≠ .ok vals := by
  refine ⟨rfl, ?_⟩
  intro vals h
  rw [show attrs_init "Parameter" Parameter.fields
        [("name", .str "x"), ("in_", Value.none)] =
      .error (.attributeError "NoneType object has no attribute value") from rfl] at h
  cases h

/-- C10 (amended): the required-field validator `validate_required` rejects
exactly the `REQUIRED` marker, so `None` passes it, and for a `Required`
field declared without a converter construction succeeds with `None` stored
(third conjunct: `Response(description=None)`); but a `Required` field
declared with a converter — `Parameter.in_` with `enum_to_string` — fails
during conversion on `None`, before validation, so there passing `None` is
not accepted. -/
theorem C10_none_passes_required_validator :
    (∀ entity fname, runValidator entity fname .validateRequired Value.none = .ok ()) ∧
    (∀ entity fname v,
      runValidator entity fname .validateRequired v = .ok () ↔ v ≠ Value.required) ∧
    attrs_init "Response" Response.fields [("description", Value.none)] =
      .ok [("ref_name", Value.none), ("description", Value.none),
           ("content", Value.skip)] := by
  refine ⟨fun e n => rfl, fun e n v => ?_, rfl⟩
  constructor
  · intro h hveq
    rw [hveq] at h
    simp [runValidator] at h
  · intro hne
    simp [runValidator, hne]

/-! ## The component registry (spec.py:712-818)

`COMPONENT_TYPES` maps the four nameable entity classes to the name of the
`Components` attribute holding their registry — `Schema → 'schemas'`,
`Response → 'responses'`, `Parameter → 'parameters'`,
`RequestBody → 'request_bodies'` — and `component_type_for_spec` dispatches
on `isinstance` in that (insertion) order; the four classes are unrelated,
so the dispatch is a function of the entity's class.  A registry attribute
defaults to `SKIP` (modelled `Option.none`); `Components` has five further
registries (`examples`, `headers`, ...) that no `COMPONENT_TYPES` entry can
ever reach, so they are omitted here.  Registries are Python dicts
(insertion-ordered, unique keys), modelled as association lists with
`dictSet` implementing `registry[name] = spec` (replace in place, else
append). -/

/-- The four entity classes appearing in `COMPONENT_TYPES`. -/
inductive CKind where
  | schema | response | parameter | requestBody
deriving Repr, DecidableEq

/-- A nameable component entity: its class, its `ref_name`, and an opaque
stand-in for the rest of its content.  (`ref_name` may be `None` in Python;
the registry claims only exercise named entities, and the spec-modelled
engine substitutes references only for entities that carry a name.) -/
structure CEntity where
  kind : CKind
  ref_name : String
  body : String
deriving Repr, DecidableEq

/-- `component_type_for_spec` (spec.py:783-791): first `isinstance` match
over `COMPONENT_TYPES` in insertion order. -/
def component_type_for_spec : CKind → String
  | .schema => "schemas"
  | .response => "responses"
  | .parameter => "parameters"
  | .requestBody => "request_bodies"

/-- One registry: a dict from name to stored entity. -/
abbrev Registry := List (String × CEntity)

/-- The `Components` object, restricted to the four reachable registries;
`Option.none` is the `SKIP` default. -/
structure Components where
  schemas : Option Registry := Option.none
  responses : Option Registry := Option.none
  parameters : Option Registry := Option.none
  request_bodies : Option Registry := Option.none
deriving Repr, DecidableEq

/-- `getattr(self, component_type_for_spec(spec))`. -/
def Components.registryAttr (c : Components) : CKind → Option Registry
  | .schema => c.schemas
  | .response => c.responses
  | .parameter => c.parameters
  | .requestBody => c.request_bodies

/-- `setattr(self, component_type_for_spec(spec), registry)`. -/
def Components.setRegistryAttr (c : Components) (k : CKind) (r : Registry) :
    Components :=
  match k with
  | .schema => { c with schemas := some r }
  | .response => { c with responses := some r }
  | .parameter => { c with parameters := some r }
  | .requestBody => { c with request_bodies := some r }

/-- `Components.get_registry_for_spec` (spec.py:757-769): the registry for
the entity's kind, or `None` if the attribute still holds `SKIP`. -/
def Components.get_registry_for_spec (c : Components) (spec : CEntity) :
    Option Registry :=
  c.registryAttr spec.kind

/-- `Components.create_registry_for_spec` (spec.py:771-781): return the
existing registry, or install and return a fresh empty one.  (The Python
method mutates `self`; the embedding passes the updated `Components`.) -/
def Components.create_registry_for_spec (c : Components) (spec : CEntity) :
    Components × Registry :=
  match c.get_registry_for_spec spec with
  | some r => (c, r)
  | Option.none => (c.setRegistryAttr spec.kind [], [])

/-- Python `dict.__setitem__`: replace the value in place if the key exists,
else append. -/
def dictSet : Registry → String → CEntity → Registry
  | [], k, v => [(k, v)]
  | (k', v') :: rest, k, v =>
      if k' = k then (k, v) :: rest else (k', v') :: dictSet rest k v

/-- Python `dict.get`. -/
def dictGet : Registry → String → Option CEntity
  | [], _ => Option.none
  | (k', v') :: rest, k => if k' = k then some v' else dictGet rest k

/-- `b.startswith('/')` (expressed on the character list so that it
evaluates inside the kernel). -/
def startsWithSlash (s : String) : Bool :=
  s.data.head? = some '/'

/-- `b.endswith('/')` (on the character list). -/
def endsWithSlash (s : String) : Bool :=
  s.data.getLast? = some '/'

/-- `posixpath.join` of two components: an absolute second component
discards the first; otherwise a single `/` separates them (none is added
after a trailing `/` or an empty first component). -/
def posixJoin2 (a b : String) : String :=
  if startsWithSlash b then b
  else if a = "" || endsWithSlash a then a ++ b
  else a ++ "/" ++ b

/-- `Components.get_ref_str` (spec.py:793-798):
`posixpath.join('#/components', component_type_for_spec(spec),
spec.ref_name)` (the `self` argument is unused beyond the static dispatch). -/
def Components.get_ref_str (_c : Components) (spec : CEntity) : String :=
  posixJoin2 (posixJoin2 "#/components" (component_type_for_spec spec.kind))
    spec.ref_name

/-- `Reference` (spec.py:712-718): a single required `ref` field (rendered
under the wire name `$ref`). -/
structure Reference where
  ref : String
deriving Repr, DecidableEq

/-- `Components.get_ref` (spec.py:800-803). -/
def Components.get_ref (c : Components) (spec : CEntity) : Reference :=
  ⟨c.get_ref_str spec⟩

/-- `Components.get_stored` (spec.py:805-809): `None` when the registry does
not exist, else `registry.get(spec.ref_name)`. -/
def Components.get_stored (c : Components) (spec : CEntity) : Option CEntity :=
  match c.get_registry_for_spec spec with
  | Option.none => Option.none
  | some r => dictGet r spec.ref_name

/-- `Components.store` (spec.py:814-817): `registry[spec.ref_name] = spec;
return self.get_ref(spec)` — note that `store` itself overwrites an
existing entry. -/
def Components.store (c : Components) (spec : CEntity) :
    Components × Reference :=
  let cr := c.create_registry_for_spec spec
  let c2 := cr.1.setRegistryAttr spec.kind (dictSet cr.2 spec.ref_name spec)
  (c2, c2.get_ref spec)

/-- Modelled from the spec: the reference-substitution step of the
serialization engine.  The module that performs it
(`openapilib/serialization.py`, imported by `base.py` and `__init__.py`) is
not among the sources; only the `Components` primitives above are.  Spec
§4.2: "look up the entity's kind-specific partition of the Component
Registry; if an entry with that name already exists, discard the new body
(keep the existing one — no overwrite) and return a Reference pointing at
it; if absent, store the entity in the registry under its name and return a
Reference." -/
def handle_reference (c : Components) (spec : CEntity) :
    Components × Reference :=
  if (c.get_stored spec).isSome then (c, c.get_ref spec)
  else c.store spec

/-- In a registry with (dict-invariant) unique keys, a name that resolves
has exactly one entry. -/
theorem dictGet_some_count (r : Registry) (n : String) (v : CEntity)
    (hnd : (r.map Prod.fst).Nodup) (h : dictGet r n = some v) :
    (r.filter (fun p => p.1 = n)).length = 1 := by
  induction r with
  | nil => simp [dictGet] at h
  | cons kv rest ih =>
    obtain ⟨k, w⟩ := kv
    rw [List.map_cons] at hnd
    have hnd' := List.nodup_cons.mp hnd
    simp only [dictGet] at h
    split at h
    · rename_i hk
      subst hk
      have hrest : rest.filter (fun p => p.1 = k) = [] := by
        rw [List.filter_eq_nil_iff]
        intro p hp
        simp only [decide_eq_true_eq]
        intro hpk
        have hmem := List.mem_map_of_mem Prod.fst hp
        rw [hpk] at hmem
        exact hnd'.1 hmem
      simp [List.filter, hrest]
    · rename_i hk
      have hcount := ih hnd'.2 h
      simp [List.filter, hk, hcount]

/-- C3: within one registry, a name maps to at most one stored definition.
If the registry already holds an entry `e₀` under the name of `e` (whether
`e`'s body equals `e₀`'s or differs), then the (spec-modelled) store step
`handle_reference` returns a `Reference` to the existing entry and leaves
the `Components` object — in particular the originally stored body —
entirely unchanged, and under the Python dict key-uniqueness invariant
exactly one entry for that name remains. -/
theorem C3_registry_no_overwrite (c : Components) (e e₀ : CEntity)
    (hwf : ∀ k : CKind, (((c.registryAttr k).getD []).map Prod.fst).Nodup)
    (hstored : c.get_stored e = some e₀) :
    handle_reference c e = (c, c.get_ref e) ∧
    (handle_reference c e).1.get_stored e = some e₀ ∧
    ((((handle_reference c e).1.registryAttr e.kind).getD []).filter
        (fun p => p.1 = e.ref_name)).length = 1 := by
  have hh : handle_reference c e = (c, c.get_ref e) := by
    rw [handle_reference, if_pos]
    rw [hstored]
    rfl
  refine ⟨hh, ?_, ?_⟩
  · rw [hh]
    exact hstored
  · rw [hh]
    rcases hreg : c.registryAttr e.kind with _ | r
    · rw [Components.get_stored, Components.get_registry_for_spec, hreg] at hstored
      cases hstored
    · have hget : dictGet r e.ref_name = some e₀ := by
        rw [Components.get_stored, Components.get_registry_for_spec, hreg] at hstored
        exact hstored
      have hnd := hwf e.kind
      rw [hreg] at hnd
      simpa [hreg] using dictGet_some_count r e.ref_name e₀ (by simpa using hnd) hget

/-- Witness for `C3_registry_no_overwrite`: store `Pet` with body `A` into a
fresh `Components`, then handle a second `Pet` entity with a *different*
body `B`: the result is a reference to `#/components/schemas/Pet`, the
stored body is still `A`, and the registry holds exactly one `Pet` entry. -/
theorem C3_registry_no_overwrite_witness :
    (handle_reference
        (Components.store {} ⟨.schema, "Pet", "A"⟩).1 ⟨.schema, "Pet", "B"⟩ =
      ((Components.store {} ⟨.schema, "Pet", "A"⟩).1,
        ⟨"#/components/schemas/Pet"⟩)) ∧
    (handle_reference
        (Components.store {} ⟨.schema, "Pet", "A"⟩).1 ⟨.schema, "Pet", "B"⟩).1.get_stored
        ⟨.schema, "Pet", "B"⟩ = some ⟨.schema, "Pet", "A"⟩ := by
  have h := C3_registry_no_overwrite
      (Components.store {} ⟨.schema, "Pet", "A"⟩).1 ⟨.schema, "Pet", "B"⟩
      ⟨.schema, "Pet", "A"⟩ (by intro k; cases k <;> decide) (by decide)
  exact ⟨h.1, h.2.1⟩

/-- C4: the claim states the emitted pointer is exactly
`#/components/<kind>/<name>` with `<kind>` drawn from `schemas`,
`responses`, `parameters`, `requestBodies`, so that a `RequestBody` named
`N` yields `#/components/requestBodies/N`.  The code does emit the claimed
strings for the first three kinds, but `COMPONENT_TYPES` maps `RequestBody`
to the *attribute name* `request_bodies`, so the emitted pointer is
`#/components/request_bodies/N` — while the rendered `components` section
(whose keys go through the snake-to-camel wire renaming) exposes the
partition as `requestBodies`, leaving the emitted pointer dangling. -/
theorem C4_reference_pointer_format :
    Components.get_ref_str {} ⟨.schema, "Pet", ""⟩ = "#/components/schemas/Pet" ∧
    Components.get_ref_str {} ⟨.response, "N", ""⟩ = "#/components/responses/N" ∧
    Components.get_ref_str {} ⟨.parameter, "N", ""⟩ = "#/components/parameters/N" ∧
    Components.get_ref_str {} ⟨.requestBody, "N", ""⟩ =
      "#/components/request_bodies/N" ∧
    Components.get_ref_str {} ⟨.requestBody, "N", ""⟩ ≠
      "#/components/requestBodies/N" := by
  refine ⟨?_, ?_, ?_, ?_, ?_⟩ <;> decide

/-! ## Entity rendering (serialization engine)

The module that renders entities (`openapilib/serialization.py`, imported by
`base.py` and `__init__.py`) is not among the sources; the field-filtering
step it performs on an entity is modelled from the spec (§4.2).  Nested
value rendering is irrelevant to which *keys* appear, so field values pass
through unchanged here (scalars pass through unchanged per the spec; claims
about rendering only concern key presence). -/

/-- A declared field as seen by the renderer: identifier, optional explicit
wire-name override (the `spec_name` metadata, e.g. `$ref`), the
internal/non-spec marker (the `non_spec` metadata, e.g. `ref_name`), and the
field's current value. -/
structure RField where
  name : String
  spec_name : Option String
  non_spec : Bool
  value : Value
deriving Repr, DecidableEq

/-- Modelled from the spec (§4.2): "strip a single trailing disambiguation
mark from the field's identifier if present" (`in_` → `in`). -/
def stripTrailingUnderscore (s : String) : String :=
  if s.data.getLast? = some '_' then String.mk s.data.dropLast else s

/-- snake-case to camel-case on the character list (`request_body` →
`requestBody`); performed by the engine when no explicit wire name is
declared. -/
def camelChars : List Char → List Char
  | [] => []
  | '_' :: c :: rest => c.toUpper :: camelChars rest
  | ['_'] => []
  | c :: rest => c :: camelChars rest

/-- Modelled from the spec (§4.2): "compute the wire name: if an explicit
override name was declared, use it; else strip a single trailing
disambiguation mark from the field's identifier if present, then convert
the remaining identifier from the host's multi-word convention to the wire
format's convention (e.g. `request_body` → `requestBody`)." -/
def wireName (f : RField) : String :=
  match f.spec_name with
  | some w => w
  | Option.none => String.mk (camelChars (stripTrailingUnderscore f.name).data)

/-- Modelled from the spec (§4.2): "For an Entity, iterate its declared
fields in declaration order: if the field's current value is the Skip
marker → omit the field entirely from the output (not the same as including
it with a null value); if the field is marked internal/non-spec → always
omit, regardless of value; otherwise ... assign [the rendered value] under
the wire name." -/
def renderEntity (fields : List RField) : List (String × Value) :=
  fields.filterMap (fun f =>
    if f.value = Value.skip then Option.none
    else if f.non_spec then Option.none
    else some (wireName f, f.value))

/-- C6: a field whose current value is the `SKIP` marker contributes no key
to the rendered output: under the (actual, per-entity-declaration) condition
that declared fields have pairwise distinct wire names, the skipped field's
wire name does not occur among the output keys at all — omission, as opposed
to presence with a null value. -/
theorem C6_skip_field_omitted (fields : List RField) (f : RField)
    (hmem : f ∈ fields) (hskip : f.value = Value.skip)
    (hnodup : (fields.map wireName).Nodup) :
    wireName f ∉ (renderEntity fields).map Prod.fst := by
  intro hin
  obtain ⟨⟨k, v⟩, hkv, hkeq⟩ := List.mem_map.mp hin
  obtain ⟨g, hg, hcond⟩ := List.mem_filterMap.mp hkv
  by_cases h1 : g.value = Value.skip
  · rw [if_pos h1] at hcond
    cases hcond
  · rw [if_neg h1] at hcond
    by_cases h2 : g.non_spec
    · rw [if_pos h2] at hcond
      cases hcond
    · rw [if_neg h2] at hcond
      cases hcond
      have hgf : g = f :=
        List.inj_on_of_nodup_map hnodup hg hmem hkeq
      rw [hgf] at h1
      exact h1 hskip

/-- Witness for `C6_skip_field_omitted`: a `Response` entity carrying
`ref_name='Pet'` (non-spec), `description='ok'` and `content=SKIP` renders
with no `content` key (and, for the record, renders exactly
`{"description": "ok"}`, `ref_name` being non-spec). -/
theorem C6_skip_field_omitted_witness :
    "content" ∉
      (renderEntity
        [⟨"ref_name", Option.none, true, .str "Pet"⟩,
         ⟨"description", Option.none, false, .str "ok"⟩,
         ⟨"content", Option.none, false, Value.skip⟩]).map Prod.fst := by
  have h := C6_skip_field_omitted
      [⟨"ref_name", Option.none, true, .str "Pet"⟩,
       ⟨"description", Option.none, false, .str "ok"⟩,
       ⟨"content", Option.none, false, Value.skip⟩]
      ⟨"content", Option.none, false, Value.skip⟩
      (by decide) rfl (by decide)
  simpa using h

end OpenApiLib
